import Mathlib

/-!
Shallow embedding of the Anon-DB paged storage engine: the `Page` type with
its binary (de)serialization (`engine` package, page source file) and the
`DBFile` allocator (`engine/file.go`).

Bytes are modelled as `Nat` values, byte buffers as `List Nat`.  A Go
runtime panic (slice-bounds violation in `encoding/binary`) is modelled
explicitly: `Option.none` for the byte-level helpers, `Outcome.panics` for
the engine operations.  The `sync.RWMutex` calls of `file.go` are modelled
as no-ops; this is generous to the code, because `writePage` and `readPage`
re-acquire the mutex that `AllocatePage`/`FreePage` already hold, so in a
real execution those operations self-deadlock before reaching the byte
operations modelled here.
-/

/-- `PageSize` constant: size in bytes of one on-disk page. -/
def PageSize : Nat := 4096

/-- `PageHeaderSize` constant: declared size in bytes of the page header.
Note that the six header fields written by `Serialize` actually need
1 + 4 + 2 + 2 + 4 + 8 = 21 bytes. -/
def PageHeaderSize : Nat := 16

/-- `FileHeaderSize` constant from `file.go`. -/
def FileHeaderSize : Nat := 32

/-- `DBFileMagicNumber` constant from `file.go` ("Anon" in hex). -/
def DBFileMagicNumber : Nat := 0x416E6F6E

/-- The `w` little-endian bytes of `v` (least significant first), as
`encoding/binary.LittleEndian.PutUintN` lays them out. -/
def leBytes (v w : Nat) : List Nat :=
  (List.range w).map fun i => v / 256 ^ i % 256

/-- Overwrite `buf` starting at index `off` with the bytes `bs`
(the effect of Go `copy(buf[off:], bs)` when `off + bs.length ≤ buf.length`). -/
def writeAt (buf : List Nat) (off : Nat) (bs : List Nat) : List Nat :=
  buf.take off ++ bs ++ buf.drop (off + bs.length)

/-- Decode a little-endian byte list into a number
(`encoding/binary.LittleEndian.UintN`). -/
def decodeLE : List Nat → Nat
  | [] => 0
  | b :: rest => b + 256 * decodeLE rest

/-- Go `binary.LittleEndian.PutUintN(buf[start:stop], v)` for an `N/8 = w`
byte write.  The slice expression panics unless `start ≤ stop ≤ buf.length`,
and `PutUintN` does an early bounds check `_ = b[w-1]` that panics unless
the slice has at least `w` bytes; `none` models these panics. -/
def putUintLE (buf : List Nat) (start stop w v : Nat) : Option (List Nat) :=
  if stop ≤ buf.length ∧ start ≤ stop ∧ w ≤ stop - start then
    some (writeAt buf start (leBytes v w))
  else
    none

/-- Go `binary.LittleEndian.UintN(buf[start:stop])` for a `w`-byte read;
`none` models the slice-bounds / early-bounds-check panic. -/
def getUintLE (buf : List Nat) (start stop w : Nat) : Option Nat :=
  if stop ≤ buf.length ∧ start ≤ stop ∧ w ≤ stop - start then
    some (decodeLE ((buf.drop start).take w))
  else
    none

/-- The error values of the engine (`errors.New` sentinels in the source). -/
inductive EngineError where
  /-- `ErrPageFull` ("page is full"). -/
  | pageFull
  /-- "Invalid read: out of bounds" returned by `ReadData`. -/
  | outOfBounds
  /-- "invalid page size" returned by `Deserialize`. -/
  | invalidPageSize
  /-- `ErrInvalidFile` ("invalid database file"). -/
  | invalidFile
  /-- `ErrPageNotFound` ("page not found"). -/
  | pageNotFound
  /-- `ErrFileCorrupted` (declared, never raised). -/
  | fileCorrupted
  /-- An error propagated from the OS file handle (e.g. a short read). -/
  | ioError
deriving DecidableEq

/-- Result of an engine operation: a normal return value, a returned Go
`error`, or a runtime panic (which in Go unwinds past the caller). -/
inductive Outcome (α : Type) where
  | ok : α → Outcome α
  | err : EngineError → Outcome α
  | panics : Outcome α
deriving DecidableEq

/-- Whether an outcome is a normal return. -/
def Outcome.isOk {α : Type} : Outcome α → Bool
  | Outcome.ok _ => true
  | _ => false

/-- `PageTypeData` (Go `PageType` is a byte; the three named values are 0,1,2). -/
def PageTypeData : Nat := 0

/-- `PageTypeIndex`. -/
def PageTypeIndex : Nat := 1

/-- `PageTypeOverflow`. -/
def PageTypeOverflow : Nat := 2

/-- The in-memory page header (`PageHeader` struct).  `pageType` is a byte,
`pageNum` and `nextPage` are `uint32`, `freeSpace` and `numRecords` are
`uint16`, `lastUpdated` is a `uint64`. -/
structure PageHeader where
  pageType : Nat
  pageNum : Nat
  freeSpace : Nat
  numRecords : Nat
  nextPage : Nat
  lastUpdated : Nat
deriving DecidableEq

/-- The in-memory page (`Page` struct): header plus a fixed
`[PageSize - PageHeaderSize]byte` body. -/
structure Page where
  header : PageHeader
  data : List Nat
deriving DecidableEq

/-- `NewPage(pageNum, pageType)`: fresh page, body zeroed,
`FreeSpace = PageSize - PageHeaderSize`. -/
def NewPage (pageNum pageType : Nat) : Page :=
  { header :=
      { pageType := pageType
        pageNum := pageNum
        freeSpace := PageSize - PageHeaderSize
        numRecords := 0
        nextPage := 0
        lastUpdated := 0 }
    data := List.replicate (PageSize - PageHeaderSize) 0 }

/-- Go `uint16` subtraction `a - b` (`FreeSpace -= uint16(len(data))`):
the subtrahend is truncated to 16 bits and the difference wraps modulo
`2^16`.  Correct for every `a < 2^16`. -/
def u16sub (a b : Nat) : Nat :=
  (a + (65536 - b % 65536)) % 65536

/-- `(*Page).WriteData(offset, data)`: the Go method mutates the receiver
and returns an `error`; here it returns the updated receiver paired with
the returned error (`none` = `nil`).  The bounds check compares against
`len(p.data)`, which is the fixed array length `PageSize - PageHeaderSize`.
On success it copies `data` into the body at `offset` and subtracts
`uint16(len(data))` from `FreeSpace`. -/
def WriteData (p : Page) (offset : Nat) (data : List Nat) : Page × Option EngineError :=
  if PageSize - PageHeaderSize < offset + data.length then
    (p, some EngineError.pageFull)
  else
    ({ header := { p.header with freeSpace := u16sub p.header.freeSpace data.length }
       data := writeAt p.data offset data },
     none)

/-- `(*Page).ReadData(offset, length)`: returns a copy of `length` body
bytes from `offset`; fails with the out-of-bounds error if
`offset + length` exceeds `len(p.data) = PageSize - PageHeaderSize`.
It does not mutate the page. -/
def ReadData (p : Page) (offset length : Nat) : Outcome (List Nat) :=
  if PageSize - PageHeaderSize < offset + length then
    Outcome.err EngineError.outOfBounds
  else
    Outcome.ok ((p.data.drop offset).take length)

/-- `(*Page).Serialize()`: allocates a `PageSize` buffer, stores the type
byte at index 0, then the header fields little-endian, then copies the
body at `PageHeaderSize`.  The fifth store is
`binary.LittleEndian.PutUint64(buf[13:PageHeaderSize], ...)`: the slice
`buf[13:16]` has only 3 bytes, so `PutUint64` panics; `none` models that
panic. -/
def Serialize (p : Page) : Option (List Nat) :=
  (putUintLE (writeAt (List.replicate PageSize 0) 0 [p.header.pageType]) 1 5 4 p.header.pageNum).bind
    fun buf2 => (putUintLE buf2 5 7 2 p.header.freeSpace).bind
      fun buf3 => (putUintLE buf3 7 9 2 p.header.numRecords).bind
        fun buf4 => (putUintLE buf4 9 13 4 p.header.nextPage).bind
          fun buf5 => (putUintLE buf5 13 PageHeaderSize 8 p.header.lastUpdated).bind
            fun buf6 =>
              some (writeAt buf6 PageHeaderSize (p.data.take (PageSize - PageHeaderSize)))

/-- `(*Page).Deserialize(data)`: rejects input whose length is not
`PageSize` with the "invalid page size" error, otherwise decodes the
header fields and copies the body.  Decoding `LastUpdated` is
`binary.LittleEndian.Uint64(data[13:PageHeaderSize])` on a 3-byte slice,
which panics (`Outcome.panics`). -/
def Deserialize (data : List Nat) : Outcome Page :=
  if data.length ≠ PageSize then Outcome.err EngineError.invalidPageSize
  else
    match getUintLE data 1 5 4 with
    | none => Outcome.panics
    | some pageNum =>
      match getUintLE data 5 7 2 with
      | none => Outcome.panics
      | some freeSpace =>
        match getUintLE data 7 9 2 with
        | none => Outcome.panics
        | some numRecords =>
          match getUintLE data 9 13 4 with
          | none => Outcome.panics
          | some nextPage =>
            match getUintLE data 13 PageHeaderSize 8 with
            | none => Outcome.panics
            | some lastUpdated =>
              Outcome.ok
                { header :=
                    { pageType := data.headD 0
                      pageNum := pageNum
                      freeSpace := freeSpace
                      numRecords := numRecords
                      nextPage := nextPage
                      lastUpdated := lastUpdated }
                  data := (data.drop PageHeaderSize).take (PageSize - PageHeaderSize) }

/-- `Deserialize(Serialize(p))`: the round trip of the spec round-trip law.
If `Serialize` panics the composition panics. -/
def pageRoundTrip (p : Page) : Outcome Page :=
  match Serialize p with
  | some bs => Deserialize bs
  | none => Outcome.panics

/-- The `FileHeader` struct of `file.go` (the reserved 12 zero bytes carry
no information and are omitted). -/
structure FileHeader where
  magicNumber : Nat
  version : Nat
  pageCount : Nat
  firstFree : Nat
  rootPage : Nat
deriving DecidableEq

/-- In-memory and on-disk state of a `DBFile`: the in-memory header, the
header bytes persisted at file offset 0, and the page records persisted at
offsets `FileHeaderSize + pageNum * PageSize` (an association list
`pageNum ↦ bytes`; a missing entry means the file has never been written
there, so an exact `ReadAt` fails). -/
structure DBFile where
  header : FileHeader
  diskHeader : List Nat
  pages : List (Nat × List Nat)
deriving DecidableEq

/-- Bytes stored for page `n`, if that slot was ever written. -/
def lookupPage (ps : List (Nat × List Nat)) (n : Nat) : Option (List Nat) :=
  (ps.find? fun e => e.1 == n).map fun e => e.2

/-- Store `bytes` as the content of page slot `n`. -/
def storePage (ps : List (Nat × List Nat)) (n : Nat) (bytes : List Nat) : List (Nat × List Nat) :=
  (n, bytes) :: ps.filter fun e => e.1 ≠ n

/-- `(*DBFile).writeHeader()`: serializes the five header fields
little-endian into a `FileHeaderSize` buffer (reserved bytes zero) and
writes it at offset 0.  The five 4-byte stores are all in bounds, so no
panic is possible here. -/
def headerToBytes (h : FileHeader) : List Nat :=
  writeAt (writeAt (writeAt (writeAt (writeAt (List.replicate FileHeaderSize 0)
    0 (leBytes h.magicNumber 4)) 4 (leBytes h.version 4)) 8 (leBytes h.pageCount 4))
    12 (leBytes h.firstFree 4)) 16 (leBytes h.rootPage 4)

/-- Effect of `writeHeader` on the file state (the `WriteAt` I/O error is
environmental and not modelled). -/
def writeHeader (df : DBFile) : DBFile :=
  { df with diskHeader := headerToBytes df.header }

/-- The header `CreateFile` installs: magic number, version 1,
`PageCount = 1` (accounting for the header page), empty free list. -/
def initialHeader : FileHeader :=
  { magicNumber := DBFileMagicNumber
    version := 1
    pageCount := 1
    firstFree := 0
    rootPage := 0 }

/-- The state of a freshly created database file: `CreateFile` opens a new
empty file, installs `initialHeader` in memory and persists it with
`writeHeader` (the `O_EXCL` failure when the path exists and the write
error that makes `CreateFile` remove the file are environmental). -/
def createFile : DBFile :=
  writeHeader { header := initialHeader, diskHeader := [], pages := [] }

/-- `(*DBFile).readHeader()`: reads `FileHeaderSize` bytes at offset 0
(an exact read, failing on a shorter file) and decodes the five fields
little-endian.  All reads are in bounds on a 32-byte buffer. -/
def readHeaderBytes (bytes : List Nat) : Outcome FileHeader :=
  if bytes.length < FileHeaderSize then Outcome.err EngineError.ioError
  else
    match getUintLE bytes 0 4 4 with
    | none => Outcome.panics
    | some m =>
      match getUintLE bytes 4 8 4 with
      | none => Outcome.panics
      | some v =>
        match getUintLE bytes 8 12 4 with
        | none => Outcome.panics
        | some pc =>
          match getUintLE bytes 12 16 4 with
          | none => Outcome.panics
          | some ff =>
            match getUintLE bytes 16 20 4 with
            | none => Outcome.panics
            | some rp =>
              Outcome.ok
                { magicNumber := m, version := v, pageCount := pc
                  firstFree := ff, rootPage := rp }

/-- `OpenFile`: opens an existing file (given here by its leading header
bytes and its page region), reads the header, and rejects a wrong magic
number with `ErrInvalidFile`. -/
def openFile (headerBytes : List Nat) (pages : List (Nat × List Nat)) : Outcome DBFile :=
  match readHeaderBytes headerBytes with
  | Outcome.ok h =>
    if h.magicNumber ≠ DBFileMagicNumber then Outcome.err EngineError.invalidFile
    else Outcome.ok { header := h, diskHeader := headerBytes, pages := pages }
  | Outcome.err e => Outcome.err e
  | Outcome.panics => Outcome.panics

/-- `(*DBFile).readPage(pageNum)`: `ErrPageNotFound` if
`pageNum ≥ PageCount`; otherwise an exact `PageSize` read at the page's
offset followed by `Deserialize`.  (In the source this also takes
`mutex.RLock()`, which deadlocks when the caller already holds the write
lock; locks are modelled as no-ops here.) -/
def readPage (df : DBFile) (pageNum : Nat) : Outcome Page :=
  if df.header.pageCount ≤ pageNum then Outcome.err EngineError.pageNotFound
  else
    match lookupPage df.pages pageNum with
    | none => Outcome.err EngineError.ioError
    | some buf => Deserialize buf

/-- `(*DBFile).writePage(page)`: `ErrPageNotFound` if the page's number is
`≥ PageCount`; otherwise `Serialize` (which panics, see `Serialize`) and a
write at the page's offset.  (The source also re-acquires the mutex here.) -/
def writePage (df : DBFile) (p : Page) : Outcome DBFile :=
  if df.header.pageCount ≤ p.header.pageNum then Outcome.err EngineError.pageNotFound
  else
    match Serialize p with
    | none => Outcome.panics
    | some bytes => Outcome.ok { df with pages := storePage df.pages p.header.pageNum bytes }

/-- Update `FirstFree` in the in-memory header. -/
def setFirstFree (df : DBFile) (v : Nat) : DBFile :=
  { df with header := { df.header with firstFree := v } }

/-- `df.header.PageCount++` on the `uint32` field. -/
def incPageCount (df : DBFile) : DBFile :=
  { df with header := { df.header with pageCount := (df.header.pageCount + 1) % 4294967296 } }

/-- Set the `NextPage` field of a page. -/
def setNextPage (p : Page) (v : Nat) : Page :=
  { p with header := { p.header with nextPage := v } }

/-- The first half of `AllocatePage` (the free-list branch): choose the
page number to hand out and update the in-memory header accordingly.
If `FirstFree ≠ 0`, read that page to recover its `NextPage` and pop it
off the free list; otherwise take `PageCount` as a fresh page number and
increment `PageCount`. -/
def allocSelect (df : DBFile) : Outcome (Nat × DBFile) :=
  if df.header.firstFree ≠ 0 then
    match readPage df df.header.firstFree with
    | Outcome.ok freePage => Outcome.ok (df.header.firstFree, setFirstFree df freePage.header.nextPage)
    | Outcome.err e => Outcome.err e
    | Outcome.panics => Outcome.panics
  else
    Outcome.ok (df.header.pageCount, incPageCount df)

/-- `(*DBFile).AllocatePage(pageType)`: choose a page number
(`allocSelect`), build a fresh page with `NewPage`, write it to disk and
persist the header.  On a returned error the in-memory header mutations
already made are kept, matching the source. -/
def AllocatePage (df : DBFile) (pageType : Nat) : Outcome Page × DBFile :=
  match allocSelect df with
  | Outcome.err e => (Outcome.err e, df)
  | Outcome.panics => (Outcome.panics, df)
  | Outcome.ok (pageNum, df1) =>
    match writePage df1 (NewPage pageNum pageType) with
    | Outcome.err e => (Outcome.err e, df1)
    | Outcome.panics => (Outcome.panics, df1)
    | Outcome.ok df2 => (Outcome.ok (NewPage pageNum pageType), writeHeader df2)

/-- `(*DBFile).FreePage(pageNum)`: `ErrPageNotFound` if
`pageNum ≥ PageCount`; otherwise build a sentinel page whose `NextPage`
is the current `FirstFree`, set `FirstFree := pageNum` in memory, write
the sentinel page, persist the header. -/
def FreePage (df : DBFile) (pageNum : Nat) : Outcome Unit × DBFile :=
  if df.header.pageCount ≤ pageNum then (Outcome.err EngineError.pageNotFound, df)
  else
    match writePage (setFirstFree df pageNum) (setNextPage (NewPage pageNum PageTypeData) df.header.firstFree) with
    | Outcome.err e => (Outcome.err e, setFirstFree df pageNum)
    | Outcome.panics => (Outcome.panics, setFirstFree df pageNum)
    | Outcome.ok df2 => (Outcome.ok (), writeHeader df2)

/-- Body bytes used by the `C8` counterexample: 2041 bytes of value 7. -/
def c8bytes : List Nat := List.replicate 2041 7

/-- Header of the open file used by the `C10` counterexample: valid magic,
three pages, free list headed by page 2. -/
def c10header : FileHeader :=
  { magicNumber := DBFileMagicNumber
    version := 1
    pageCount := 3
    firstFree := 2
    rootPage := 0 }

/-- The open-file state produced by `openFile` on `c10header`'s bytes. -/
def c10file : DBFile :=
  { header := c10header
    diskHeader := headerToBytes c10header
    pages := [] }

/-- `PutUint64` on the 3-byte slice `buf[13:16]` always panics: the early
bounds check `8 ≤ 16 - 13` fails regardless of the buffer. -/
theorem put64_none (buf : List Nat) (v : Nat) : putUintLE buf 13 PageHeaderSize 8 v = none := by
  unfold putUintLE PageHeaderSize
  rw [if_neg]
  rintro ⟨-, -, h3⟩
  omega

/-- An option bound into a constantly-`none` continuation is `none`. -/
theorem bind_const_none {α β : Type} (x : Option α) :
    (x.bind fun _ => (none : Option β)) = none := by
  cases x <;> rfl

/-- `Serialize` panics on every page: whatever the first four stores do,
the `PutUint64` store fails its bounds check. -/
theorem serialize_eq_none (p : Page) : Serialize p = none := by
  unfold Serialize
  simp only [put64_none, Option.none_bind, bind_const_none]

/-- `writePage` either rejects an out-of-range page number or panics in
`Serialize`; it never completes a write. -/
theorem writePage_eq (df : DBFile) (p : Page) :
    writePage df p =
      if df.header.pageCount ≤ p.header.pageNum then Outcome.err EngineError.pageNotFound
      else Outcome.panics := by
  unfold writePage
  split
  · rfl
  · rw [serialize_eq_none]

/-- Full characterization of `FreePage`: out-of-range page numbers are
rejected with `ErrPageNotFound` and the state is untouched; in-range page
numbers reach the sentinel-page write, which panics after the in-memory
`FirstFree` update. -/
theorem freePage_eq (df : DBFile) (n : Nat) :
    FreePage df n =
      if df.header.pageCount ≤ n then (Outcome.err EngineError.pageNotFound, df)
      else (Outcome.panics, setFirstFree df n) := by
  unfold FreePage
  split
  · rfl
  · rw [writePage_eq]
    have hpc : (setFirstFree df n).header.pageCount = df.header.pageCount := rfl
    have hpn : (setNextPage (NewPage n PageTypeData) df.header.firstFree).header.pageNum = n := rfl
    rw [hpc, hpn]
    rw [if_neg (by assumption)]

/-- When the free list is empty, `allocSelect` hands out `PageCount` and
increments it. -/
theorem allocSelect_empty (df : DBFile) (h : df.header.firstFree = 0) :
    allocSelect df = Outcome.ok (df.header.pageCount, incPageCount df) := by
  unfold allocSelect
  rw [if_neg (by simp [h])]

/-- When the free list is empty and the incremented `PageCount` does not
wrap, `AllocatePage` increments `PageCount` in memory and then panics in
the page write. -/
theorem alloc_empty_panics (df : DBFile) (t : Nat) (h : df.header.firstFree = 0)
    (h2 : df.header.pageCount < (df.header.pageCount + 1) % 4294967296) :
    AllocatePage df t = (Outcome.panics, incPageCount df) := by
  unfold AllocatePage
  rw [allocSelect_empty df h]
  dsimp only
  rw [writePage_eq]
  have hpc : (incPageCount df).header.pageCount = (df.header.pageCount + 1) % 4294967296 := rfl
  have hpn : (NewPage df.header.pageCount t).header.pageNum = df.header.pageCount := rfl
  rw [hpc, hpn]
  rw [if_neg (by omega)]

/-- `AllocatePage` never returns a page: every control path ends in a
returned error or in the `Serialize` panic inside `writePage`. -/
theorem alloc_not_ok (df : DBFile) (t : Nat) :
    ((AllocatePage df t).1).isOk = false := by
  unfold AllocatePage
  cases hs : allocSelect df with
  | err e => rfl
  | panics => rfl
  | ok pair =>
    obtain ⟨pageNum, df1⟩ := pair
    dsimp only
    rw [writePage_eq]
    by_cases hc : df1.header.pageCount ≤ (NewPage pageNum t).header.pageNum
    · rw [if_pos hc]; rfl
    · rw [if_neg hc]; rfl

/-- `AllocatePage` bookkeeping: the in-memory `PageCount` after the call is
`(PageCount + 1) % 2^32` when the free list was empty at entry, and is
unchanged otherwise. -/
theorem alloc_pageCount (df : DBFile) (t : Nat) :
    ((AllocatePage df t).2).header.pageCount =
      if df.header.firstFree = 0 then (df.header.pageCount + 1) % 4294967296
      else df.header.pageCount := by
  unfold AllocatePage
  by_cases h : df.header.firstFree = 0
  · rw [allocSelect_empty df h, if_pos h]
    dsimp only
    rw [writePage_eq]
    by_cases hc : (incPageCount df).header.pageCount ≤ (NewPage df.header.pageCount t).header.pageNum
    · rw [if_pos hc]; rfl
    · rw [if_neg hc]; rfl
  · rw [if_neg h]
    unfold allocSelect
    rw [if_pos h]
    cases hr : readPage df df.header.firstFree with
    | err e => rfl
    | panics => rfl
    | ok freePage =>
      dsimp only
      rw [writePage_eq]
      by_cases hc : (setFirstFree df freePage.header.nextPage).header.pageCount ≤ (NewPage df.header.firstFree t).header.pageNum
      · rw [if_pos hc]; rfl
      · rw [if_neg hc]; rfl

/-- C1: the claim states that `Deserialize(Serialize(p))` succeeds for
every page and reproduces every header field and the body.  On the code
the round trip never succeeds: `Serialize` panics on every page, because
`binary.LittleEndian.PutUint64` is handed the 3-byte slice `buf[13:16]`
(`PageHeaderSize = 16` cannot hold the 21 bytes of header fields), so the
composition panics before `Deserialize` is ever reached. -/
theorem c1_round_trip_panics (p : Page) : pageRoundTrip p = Outcome.panics := by
  unfold pageRoundTrip
  rw [serialize_eq_none]

/-- C2: the claim states that `Serialize` always returns normally with
exactly `PageSize` bytes.  On the code `Serialize` never returns a byte
slice at all: every call panics in the `PutUint64` bounds check. -/
theorem c2_serialize_never_returns (p : Page) : (Serialize p).isSome = false := by
  rw [serialize_eq_none]
  rfl

/-- C3: the claim describes the allocate-free-allocate LIFO reuse sequence
on a freshly created file.  The sequence cannot begin: the very first
`AllocatePage` call panics inside `writePage`'s `Serialize` (in a real
execution it self-deadlocks even earlier, on the mutex `writePage`
re-acquires), after having already set the in-memory `PageCount` to 2. -/
theorem c3_first_alloc_panics :
    (AllocatePage createFile PageTypeData).1 = Outcome.panics ∧
    (AllocatePage createFile PageTypeData).2.header.pageCount = 2 ∧
    (AllocatePage createFile PageTypeData).2.header.firstFree = 0 := by
  rw [alloc_empty_panics createFile PageTypeData rfl (by decide)]
  exact ⟨rfl, by decide, rfl⟩

/-- C4: the claim bundles (a) every successful `AllocatePage` call returns
a page number `< PageCount`, (b) `PageCount` is incremented by exactly one
only when `FirstFree` was 0 at entry, and (c) no operation decreases
`PageCount`.  Parts (b) and (c) hold for the in-memory header (first three
conjuncts), but part (a) quantifies over successful calls and no
`AllocatePage` call ever succeeds: every call panics in `Serialize`
(last conjunct). -/
theorem c4_page_count_bookkeeping (df : DBFile) (t n : Nat) :
    ((AllocatePage df t).2.header.pageCount =
       if df.header.firstFree = 0 then (df.header.pageCount + 1) % 4294967296
       else df.header.pageCount) ∧
    (df.header.pageCount + 1 < 4294967296 →
       df.header.pageCount ≤ (AllocatePage df t).2.header.pageCount) ∧
    ((FreePage df n).2.header.pageCount = df.header.pageCount) ∧
    ((AllocatePage df t).1.isOk = false) := by
  refine ⟨alloc_pageCount df t, ?_, ?_, alloc_not_ok df t⟩
  · intro hlt
    rw [alloc_pageCount df t]
    split
    · rw [Nat.mod_eq_of_lt hlt]
      omega
    · exact le_refl _
  · rw [freePage_eq]
    split <;> rfl

/-- Witness for `c4_page_count_bookkeeping` at the freshly created file. -/
theorem c4_witness :
    createFile.header.pageCount + 1 < 4294967296 ∧
    createFile.header.pageCount ≤ (AllocatePage createFile PageTypeData).2.header.pageCount :=
  ⟨by decide, (c4_page_count_bookkeeping createFile PageTypeData 0).2.1 (by decide)⟩

/-- C5: `WriteData(offset, data)` with `offset + len(data)` beyond the
body capacity `PageSize - PageHeaderSize = 4080` fails with `ErrPageFull`
and leaves the page (`FreeSpace` and body) unchanged; otherwise it
succeeds, writes the bytes into the body at `offset`, and decrements the
16-bit `FreeSpace` field by `len(data)` (`uint16` arithmetic). -/
theorem c5_write_data_bounds (p : Page) (offset : Nat) (d : List Nat) :
    (PageSize - PageHeaderSize < offset + d.length →
       WriteData p offset d = (p, some EngineError.pageFull)) ∧
    (offset + d.length ≤ PageSize - PageHeaderSize →
       (WriteData p offset d).2 = none ∧
       (WriteData p offset d).1.header.freeSpace = u16sub p.header.freeSpace d.length ∧
       (WriteData p offset d).1.data = writeAt p.data offset d) := by
  constructor
  · intro hgt
    unfold WriteData
    rw [if_pos hgt]
  · intro hle
    unfold WriteData
    rw [if_neg (by omega)]
    exact ⟨rfl, rfl, rfl⟩

/-- Witness for `c5_write_data_bounds`: a 100-byte write at offset 4000
overflows the 4080-byte body and fails with `ErrPageFull`; the same write
at offset 0 succeeds. -/
theorem c5_witness :
    (PageSize - PageHeaderSize < 4000 + (List.replicate 100 1).length ∧
       WriteData (NewPage 0 PageTypeData) 4000 (List.replicate 100 1) =
         (NewPage 0 PageTypeData, some EngineError.pageFull)) ∧
    (0 + (List.replicate 100 1).length ≤ PageSize - PageHeaderSize ∧
       (WriteData (NewPage 0 PageTypeData) 0 (List.replicate 100 1)).2 = none ∧
       (WriteData (NewPage 0 PageTypeData) 0 (List.replicate 100 1)).1.header.freeSpace = 3980) :=
  ⟨⟨by decide,
    (c5_write_data_bounds (NewPage 0 PageTypeData) 4000 (List.replicate 100 1)).1 (by decide)⟩,
   ⟨by decide,
    ((c5_write_data_bounds (NewPage 0 PageTypeData) 0 (List.replicate 100 1)).2 (by decide)).1,
    by decide⟩⟩

/-- C6: the claim's first half holds: `FreePage(pageNum)` with
`pageNum ≥ PageCount` fails with `ErrPageNotFound` and leaves the state
untouched.  Its second half fails on the code: for `pageNum < PageCount`
the call never completes the free - the sentinel-page write panics in
`Serialize` (in a real execution it self-deadlocks on the re-acquired
mutex) after the in-memory `FirstFree := pageNum` update. -/
theorem c6_free_page (df : DBFile) (n : Nat) :
    (df.header.pageCount ≤ n → FreePage df n = (Outcome.err EngineError.pageNotFound, df)) ∧
    (n < df.header.pageCount →
       (FreePage df n).1 = Outcome.panics ∧ (FreePage df n).2 = setFirstFree df n) := by
  constructor
  · intro hge
    rw [freePage_eq, if_pos hge]
  · intro hlt
    rw [freePage_eq, if_neg (by omega)]
    exact ⟨rfl, rfl⟩

/-- Witness for `c6_free_page` on the freshly created file (`PageCount = 1`):
freeing page 5 is rejected, freeing page 0 reaches the panic. -/
theorem c6_witness :
    (createFile.header.pageCount ≤ 5 ∧
       FreePage createFile 5 = (Outcome.err EngineError.pageNotFound, createFile)) ∧
    (0 < createFile.header.pageCount ∧
       (FreePage createFile 0).1 = Outcome.panics ∧
       (FreePage createFile 0).2 = setFirstFree createFile 0) :=
  ⟨⟨by decide, (c6_free_page createFile 5).1 (by decide)⟩,
   ⟨by decide, (c6_free_page createFile 0).2 (by decide)⟩⟩

/-- C7 counterexample (negation of the claim's existential, stated closed
as a function equation): the function mapping a file state and page type
to "did `AllocatePage` return a page" is constantly `false` - no
`AllocatePage` call on any file state ever returns a page, so in
particular no sequence of `AllocatePage`/`FreePage` operations starting
from `createFile` can make `AllocatePage` return page number 0. -/
theorem c7_counterexample :
    (fun (df : DBFile) (t : Nat) => ((AllocatePage df t).1).isOk) =
      fun _ _ => false := by
  funext df t
  exact alloc_not_ok df t

/-- C7 amended: page number 0 lies outside the file-header byte range, but
it is never allocatable: whenever the allocator's page-number selection
(`allocSelect`, the first half of `AllocatePage`) completes normally on a
file with `PageCount ≥ 1`, the selected page number is at least 1
(`FirstFree = 0` means "free list empty", so 0 is never popped from the
free list, and fresh page numbers equal `PageCount ≥ 1`). -/
theorem c7_alloc_select_positive (df : DBFile) (h1 : 1 ≤ df.header.pageCount)
    (n : Nat) (df1 : DBFile) (hs : allocSelect df = Outcome.ok (n, df1)) : 1 ≤ n := by
  unfold allocSelect at hs
  by_cases hf : df.header.firstFree = 0
  · rw [if_neg (by simp [hf])] at hs
    rw [Outcome.ok.injEq, Prod.mk.injEq] at hs
    obtain ⟨hn, -⟩ := hs
    omega
  · rw [if_pos hf] at hs
    cases hr : readPage df df.header.firstFree with
    | ok freePage =>
      rw [hr] at hs
      dsimp only at hs
      rw [Outcome.ok.injEq, Prod.mk.injEq] at hs
      obtain ⟨hn, -⟩ := hs
      omega
    | err e =>
      rw [hr] at hs
      simp at hs
    | panics =>
      rw [hr] at hs
      simp at hs

/-- Witness for `c7_alloc_select_positive`: on the freshly created file
the selection completes with page number 1. -/
theorem c7_amended_witness : 1 ≤ createFile.header.pageCount ∧ (1 : Nat) ≤ 1 :=
  ⟨by decide,
   c7_alloc_select_positive createFile (by decide) 1 (incPageCount createFile) (by rfl)⟩

/-- A `c8bytes` write at offset 0 always succeeds (2041 ≤ 4080) and
subtracts 2041 from `FreeSpace` in `uint16` arithmetic. -/
theorem c8_step (p : Page) :
    (WriteData p 0 c8bytes).2 = none ∧
    (WriteData p 0 c8bytes).1.header.freeSpace = u16sub p.header.freeSpace 2041 := by
  have hlen : c8bytes.length = 2041 := List.length_replicate 2041 7
  unfold WriteData
  rw [if_neg (by simp [hlen, PageSize, PageHeaderSize])]
  refine ⟨rfl, ?_⟩
  show u16sub p.header.freeSpace c8bytes.length = u16sub p.header.freeSpace 2041
  rw [hlen]

/-- C8 counterexample: two successful `WriteData` calls on a fresh page
make `FreeSpace` increase.  A 2041-byte write drops `FreeSpace` from 4080
to 2039; a second successful 2041-byte write (at the same offset -
overlapping writes are allowed) wraps the `uint16` subtraction and raises
`FreeSpace` to 65534 > 2039. -/
theorem c8_counterexample :
    (WriteData (NewPage 0 PageTypeData) 0 c8bytes).2 = none ∧
    (WriteData (NewPage 0 PageTypeData) 0 c8bytes).1.header.freeSpace = 2039 ∧
    (WriteData ((WriteData (NewPage 0 PageTypeData) 0 c8bytes).1) 0 c8bytes).2 = none ∧
    (WriteData ((WriteData (NewPage 0 PageTypeData) 0 c8bytes).1) 0 c8bytes).1.header.freeSpace = 65534 := by
  obtain ⟨h1, h2⟩ := c8_step (NewPage 0 PageTypeData)
  obtain ⟨h3, h4⟩ := c8_step ((WriteData (NewPage 0 PageTypeData) 0 c8bytes).1)
  refine ⟨h1, ?_, h3, ?_⟩
  · rw [h2]
    decide
  · rw [h4, h2]
    decide

/-- C8 amended: `ReadData` never changes the page, and `FreeSpace` is
non-increasing under successful `WriteData` calls as long as no `uint16`
underflow occurs, i.e. while each write's length is at most the current
`FreeSpace`; a longer write wraps the 16-bit subtraction and can increase
the field. -/
theorem c8_free_space_monotone (p : Page) (offset : Nat) (d : List Nat)
    (hfs : p.header.freeSpace < 65536) (hlen : d.length ≤ p.header.freeSpace) :
    (WriteData p offset d).1.header.freeSpace ≤ p.header.freeSpace := by
  unfold WriteData
  split
  · exact le_refl _
  · show u16sub p.header.freeSpace d.length ≤ p.header.freeSpace
    unfold u16sub
    omega

/-- Witness for `c8_free_space_monotone`: a 100-byte write on a fresh page. -/
theorem c8_witness :
    (NewPage 0 PageTypeData).header.freeSpace < 65536 ∧
    (List.replicate 100 1).length ≤ (NewPage 0 PageTypeData).header.freeSpace ∧
    (WriteData (NewPage 0 PageTypeData) 0 (List.replicate 100 1)).1.header.freeSpace ≤
      (NewPage 0 PageTypeData).header.freeSpace :=
  ⟨by decide, by decide,
   c8_free_space_monotone (NewPage 0 PageTypeData) 0 (List.replicate 100 1) (by decide) (by decide)⟩

/-- C9: the claim asserts that each of N concurrent `AllocatePage` calls
runs to completion and that the N calls return N pairwise-distinct page
numbers.  No call runs to completion: already a single sequential call
(N = 1, the order the claimed lock serialization would enforce) panics,
and so does the call after it, so no page numbers are returned at all.
(In the unmodelled real execution each call self-deadlocks instead on the
mutex `writePage`/`readPage` re-acquire.) -/
theorem c9_sequential_allocs_panic :
    (AllocatePage createFile PageTypeData).1 = Outcome.panics ∧
    (AllocatePage (AllocatePage createFile PageTypeData).2 PageTypeData).1 = Outcome.panics := by
  rw [alloc_empty_panics createFile PageTypeData rfl (by decide)]
  dsimp only
  rw [alloc_empty_panics (incPageCount createFile) PageTypeData rfl (by decide)]
  exact ⟨rfl, rfl⟩

/-- C10 counterexample: on an opened file with three pages and a free list
headed by page 2, `FreePage(0)` does not succeed - it panics in the
sentinel-page write - and its only lasting effect is to replace the
in-memory `FirstFree = 2` by 0, the allocator's "empty list" sentinel,
orphaning the existing free list. -/
theorem c10_counterexample :
    openFile (headerToBytes c10header) [] = Outcome.ok c10file ∧
    c10file.header.firstFree = 2 ∧
    (FreePage c10file 0).1 = Outcome.panics ∧
    (FreePage c10file 0).2.header.firstFree = 0 := by
  refine ⟨by decide, rfl, ?_, ?_⟩
  · rw [freePage_eq, if_neg (by decide)]
  · rw [freePage_eq, if_neg (by decide)]
    rfl

/-- C10 amended: on any open file with `PageCount ≥ 1`, `FreePage(0)`
passes the bounds check but never completes (the sentinel-page write
panics); before failing it sets the in-memory `FirstFree` to 0, which
`AllocatePage` reads as "free list empty", so page 0 never becomes
reusable and any previous free-list head is dropped. -/
theorem c10_free_zero (df : DBFile) (h : 0 < df.header.pageCount) :
    (FreePage df 0).1 = Outcome.panics ∧ (FreePage df 0).2.header.firstFree = 0 := by
  rw [freePage_eq, if_neg (by omega)]
  exact ⟨rfl, rfl⟩

/-- Witness for `c10_free_zero` at the `c10file` open-file state. -/
theorem c10_witness :
    0 < c10file.header.pageCount ∧
    (FreePage c10file 0).1 = Outcome.panics ∧
    (FreePage c10file 0).2.header.firstFree = 0 :=
  ⟨by decide, c10_free_zero c10file (by decide)⟩
